import Mathlib

/-!
Verification of the inbound-message-to-outbound-reply pipeline of the
social-media downloader bot (src/app.py): URL extraction
(`handle_message`), platform classification (`extract_url_info`), and the
response-interpretation / reply-composition slice of `process_url`.

The embedding models the Python semantics the source relies on: JSON
values as produced by `json.loads` (numbers restricted to integers and
strings to the escape forms used here), Python truthiness, the `in`
membership operator with its `TypeError` on non-iterables, `dict.get`,
string slicing `s[:n]` / `s[n:]`, `urllib.parse.urlparse().netloc`
extraction (without IPv6 bracket handling), `str.lower` / `str.title`
for ASCII, and the regex `https?://[^\s]+` over the ASCII whitespace
class.
-/

namespace SocialDL

/-- JSON values as produced by Python `json.loads`.  Objects are ordered
association lists with unique keys (later duplicate keys overwrite the
value in place, as Python dicts do).  Numbers are modelled as integers. -/
inductive JValue where
  | null : JValue
  | bool (b : Bool) : JValue
  | num (n : Int) : JValue
  | str (s : String) : JValue
  | arr (items : List JValue) : JValue
  | obj (fields : List (String × JValue)) : JValue

/-- Python slice `s[:n]` (by code point). -/
def strTake (s : String) (n : Nat) : String := String.mk (s.data.take n)

/-- Python slice `s[n:]` (by code point). -/
def strDrop (s : String) (n : Nat) : String := String.mk (s.data.drop n)

/-- Substring test: `pat.isPrefixOf` at each suffix of the subject. -/
def containsSubAux (pat : List Char) : List Char → Bool
  | [] => pat.isEmpty
  | c :: rest => pat.isPrefixOf (c :: rest) || containsSubAux pat rest

/-- Python `pat in s` on strings: substring containment. -/
def containsSub (s pat : String) : Bool := containsSubAux pat.data s.data

/-- Python truthiness (`bool(v)`) for JSON-derived values. -/
def truthy : JValue → Bool
  | .null => false
  | .bool b => b
  | .num n => n != 0
  | .str s => s != ""
  | .arr xs => !xs.isEmpty
  | .obj kvs => !kvs.isEmpty

/-- Python `a or b`: `a` if truthy, else `b`. -/
def pyOr (a b : JValue) : JValue := if truthy a then a else b

/-- First truthy element of a chain, else its last element (the value of
a Python `v1 or v2 or ... or vn` expression); `null` for the empty chain. -/
def pyOrChain : List JValue → JValue
  | [] => .null
  | [v] => v
  | v :: rest => if truthy v then v else pyOrChain rest

/-- Python `dict.get k` on a JSON object: the stored value, or `None`
(modelled as `JValue.null`, exactly what JSON `null` also parses to). -/
def dGet (kvs : List (String × JValue)) (k : String) : JValue :=
  match kvs.find? (fun p => p.1 == k) with
  | some p => p.2
  | none => .null

/-- Python type name of a JSON-derived value, as it appears in error
messages. -/
def pyTypeName : JValue → String
  | .null => "NoneType"
  | .bool _ => "bool"
  | .num _ => "int"
  | .str _ => "str"
  | .arr _ => "list"
  | .obj _ => "dict"

/-- Python `k in v`: key membership for dicts, substring for strings,
element equality for lists, and a `TypeError` (modelled as `.error` with
the CPython message) for `None`, booleans and numbers. -/
def pyContains (v : JValue) (k : String) : Except String Bool :=
  match v with
  | .obj kvs => .ok (kvs.any (fun p => p.1 == k))
  | .str s => .ok (containsSub s k)
  | .arr xs => .ok (xs.any (fun x => match x with | .str s => s == k | _ => false))
  | other => .error ("argument of type \x27" ++ pyTypeName other ++ "\x27 is not iterable")

/-- The guard `'url' in data or 'downloadUrl' in data or 'video_url' in
data` of `process_url`, with Python short-circuit evaluation: a
`TypeError` raised by the first test propagates. -/
def hasCandidateKey (v : JValue) : Except String Bool :=
  match pyContains v "url" with
  | .error e => .error e
  | .ok true => .ok true
  | .ok false =>
    match pyContains v "downloadUrl" with
    | .error e => .error e
    | .ok true => .ok true
    | .ok false => pyContains v "video_url"

/-- CPython message of the `AttributeError` raised by `data.get(...)`
when the parsed body is not a dict. -/
def attrErr (v : JValue) : String :=
  "\x27" ++ pyTypeName v ++ "\x27 object has no attribute \x27get\x27"

/-! ### A model of Python `json.loads` (the fragment this program can meet) -/

/-- JSON insignificant whitespace (space, tab, newline, carriage return). -/
def skipWs : List Char → List Char
  | c :: cs => if c = ' ' || c = '\t' || c = '\n' || c = '\r' then skipWs cs else c :: cs
  | [] => []

/-- Value of a hexadecimal digit. -/
def hexVal (c : Char) : Option Nat :=
  if c.isDigit then some (c.toNat - 48)
  else if 'a' ≤ c && c ≤ 'f' then some (c.toNat - 87)
  else if 'A' ≤ c && c ≤ 'F' then some (c.toNat - 55)
  else none

/-- Body of a JSON string after the opening quote: returns the decoded
characters and the remainder after the closing quote.  Supports the
simple escapes and non-surrogate `\uXXXX`; rejects raw control
characters, as `json.loads` does in strict mode. -/
def parseStrChars : List Char → Option (List Char × List Char)
  | [] => none
  | '"' :: rest => some ([], rest)
  | '\\' :: '"' :: rest => (parseStrChars rest).map (fun p => ('"' :: p.1, p.2))
  | '\\' :: '\\' :: rest => (parseStrChars rest).map (fun p => ('\\' :: p.1, p.2))
  | '\\' :: '/' :: rest => (parseStrChars rest).map (fun p => ('/' :: p.1, p.2))
  | '\\' :: 'b' :: rest => (parseStrChars rest).map (fun p => ('\x08' :: p.1, p.2))
  | '\\' :: 'f' :: rest => (parseStrChars rest).map (fun p => ('\x0c' :: p.1, p.2))
  | '\\' :: 'n' :: rest => (parseStrChars rest).map (fun p => ('\n' :: p.1, p.2))
  | '\\' :: 'r' :: rest => (parseStrChars rest).map (fun p => ('\x0d' :: p.1, p.2))
  | '\\' :: 't' :: rest => (parseStrChars rest).map (fun p => ('\t' :: p.1, p.2))
  | '\\' :: 'u' :: h1 :: h2 :: h3 :: h4 :: rest =>
    (match hexVal h1, hexVal h2, hexVal h3, hexVal h4 with
     | some a, some b, some c, some d =>
       let n := ((a * 16 + b) * 16 + c) * 16 + d
       if n < 0xd800 || 0xdfff < n then
         (parseStrChars rest).map (fun p => (Char.ofNat n :: p.1, p.2))
       else none
     | _, _, _, _ => none)
  | '\\' :: _ => none
  | c :: rest => if c.toNat < 32 then none else (parseStrChars rest).map (fun p => (c :: p.1, p.2))

/-- Numeric value of a digit run. -/
def digitsToNat (ds : List Char) : Nat := ds.foldl (fun a c => a * 10 + (c.toNat - 48)) 0

/-- A JSON non-negative integer literal: a digit run without a redundant
leading zero and not followed by a fraction or exponent (non-integer
numbers are outside this model). -/
def parseNat (cs : List Char) : Option (Nat × List Char) :=
  let ds := cs.takeWhile Char.isDigit
  let rest := cs.drop ds.length
  if ds.isEmpty then none
  else if ds.length > 1 && ds.headD ' ' = '0' then none
  else match rest with
    | '.' :: _ => none
    | 'e' :: _ => none
    | 'E' :: _ => none
    | _ => some (digitsToNat ds, rest)

/-- Insert a parsed key/value pair into an object: a duplicate key
overwrites the stored value in place, as assignment into a Python dict
does. -/
def insertKV (kvs : List (String × JValue)) (k : String) (v : JValue) : List (String × JValue) :=
  if kvs.any (fun p => p.1 == k) then kvs.map (fun p => if p.1 == k then (k, v) else p)
  else kvs ++ [(k, v)]

/-- Fold a parsed field list into a dict. -/
def buildDict (fields : List (String × JValue)) : List (String × JValue) :=
  fields.foldl (fun acc kv => insertKV acc kv.1 kv.2) []

mutual

/-- One JSON value at the head of the input (no leading whitespace);
fuel-bounded recursive descent. -/
def parseValue : Nat → List Char → Option (JValue × List Char)
  | 0, _ => none
  | fuel + 1, cs =>
    match cs with
    | 'n' :: 'u' :: 'l' :: 'l' :: rest => some (.null, rest)
    | 't' :: 'r' :: 'u' :: 'e' :: rest => some (.bool true, rest)
    | 'f' :: 'a' :: 'l' :: 's' :: 'e' :: rest => some (.bool false, rest)
    | '"' :: rest => (parseStrChars rest).map (fun p => (.str (String.mk p.1), p.2))
    | '[' :: rest =>
      (match skipWs rest with
       | ']' :: rest2 => some (.arr [], rest2)
       | cs2 => (parseElems fuel cs2).map (fun p => (.arr p.1, p.2)))
    | '\x7b' :: rest =>
      (match skipWs rest with
       | '\x7d' :: rest2 => some (.obj [], rest2)
       | cs2 => (parseFields fuel cs2).map (fun p => (.obj (buildDict p.1), p.2)))
    | '-' :: rest => (parseNat rest).map (fun p => (.num (-(p.1 : Int)), p.2))
    | c :: rest => if c.isDigit then (parseNat (c :: rest)).map (fun p => (.num (p.1 : Int), p.2)) else none
    | [] => none

/-- Comma-separated array elements up to the closing bracket. -/
def parseElems : Nat → List Char → Option (List JValue × List Char)
  | 0, _ => none
  | fuel + 1, cs =>
    match parseValue fuel (skipWs cs) with
    | none => none
    | some (v, rest) =>
      match skipWs rest with
      | ',' :: rest2 => (parseElems fuel rest2).map (fun p => (v :: p.1, p.2))
      | ']' :: rest2 => some ([v], rest2)
      | _ => none

/-- Comma-separated `"key": value` pairs up to the closing brace. -/
def parseFields : Nat → List Char → Option (List (String × JValue) × List Char)
  | 0, _ => none
  | fuel + 1, cs =>
    match skipWs cs with
    | '"' :: rest =>
      (match parseStrChars rest with
       | none => none
       | some (key, rest2) =>
         match skipWs rest2 with
         | ':' :: rest3 =>
           (match parseValue fuel (skipWs rest3) with
            | none => none
            | some (v, rest4) =>
              match skipWs rest4 with
              | ',' :: rest5 => (parseFields fuel rest5).map (fun p => ((String.mk key, v) :: p.1, p.2))
              | '\x7d' :: rest5 => some ([(String.mk key, v)], rest5)
              | _ => none)
         | _ => none)
    | _ => none

end

/-- Model of `response.json()` / `json.loads`: one JSON document with
optional surrounding whitespace, or `none` (a `JSONDecodeError`). -/
def parseJson (s : String) : Option JValue :=
  match parseValue (2 * s.length + 2) (skipWs s.data) with
  | some (v, rest) =>
    (match skipWs rest with
     | [] => some v
     | _ => none)
  | none => none

/-! ### URL host extraction and classification (`extract_url_info`) -/

/-- Characters allowed in a URL scheme after the leading letter
(`urllib.parse.scheme_chars`). -/
def schemeChar (c : Char) : Bool := c.isAlphanum || c == '+' || c == '-' || c == '.'

/-- Scan for `':'` while the preceding characters are scheme characters;
on success return what follows the colon. -/
def findSchemeRest : List Char → Option (List Char)
  | [] => none
  | c :: rest => if c == ':' then some rest else if schemeChar c then findSchemeRest rest else none

/-- Remove a well-formed `scheme:` prefix (first character a letter, the
rest scheme characters), as `urllib.parse.urlsplit` does; otherwise
return the input unchanged. -/
def dropScheme (cs : List Char) : List Char :=
  match cs with
  | [] => []
  | c :: rest =>
    if c.isAlpha then
      (match findSchemeRest rest with
       | some r => r
       | none => cs)
    else cs

/-- `urllib.parse.urlparse(url).netloc`: after an optional scheme, if the
remainder starts with `//`, everything up to the next `/`, `?` or `#`;
otherwise the empty string. -/
def netlocOf (url : String) : String :=
  match dropScheme url.data with
  | '/' :: '/' :: tl => String.mk (tl.takeWhile (fun c => !(c == '/' || c == '?' || c == '#')))
  | _ => ""

/-- The `domain_map` table of `extract_url_info`, in source order. -/
def domain_map : List (String × String) :=
  [("youtube.com", "youtube"),
   ("youtu.be", "youtube"),
   ("instagram.com", "instagram"),
   ("fb.watch", "facebook"),
   ("facebook.com", "facebook"),
   ("twitter.com", "twitter"),
   ("x.com", "twitter"),
   ("tiktok.com", "tiktok"),
   ("snapchat.com", "snapchat"),
   ("pinterest.com", "pinterest"),
   ("linkedin.com", "linkedin"),
   ("reddit.com", "reddit"),
   ("threads.net", "threads"),
   ("rumble.com", "rumble"),
   ("twitch.tv", "twitch"),
   ("dailymotion.com", "dailymotion"),
   ("vimeo.com", "vimeo")]

/-- Python `str.lower()` for ASCII strings (character-wise). -/
def lowerStr (s : String) : String := String.mk (s.data.map Char.toLower)

/-- `extract_url_info`: lowercase the URL netloc and return the platform
of the first table entry whose key occurs in it as a substring, else
`"unknown"`. -/
def extract_url_info (url : String) : String :=
  match domain_map.find? (fun p => containsSub (lowerStr (netlocOf url)) p.1) with
  | some p => p.2
  | none => "unknown"

/-! ### URL extraction from message text (`handle_message`) -/

/-- The character class `\s` of Python `re` restricted to ASCII. -/
def pyIsSpace (c : Char) : Bool :=
  c == ' ' || c == '\t' || c == '\n' || c == '\r' || c == '\x0b' || c == '\x0c'

/-- A match of the regex `https?://[^\s]+` anchored at the head of the
input: the scheme literal followed by the maximal nonempty run of
non-whitespace characters. -/
def matchAt (cs : List Char) : Option (List Char) :=
  if "https://".data.isPrefixOf cs then
    (match (cs.drop 8).takeWhile (fun c => !pyIsSpace c) with
     | [] => none
     | body => some ("https://".data ++ body))
  else if "http://".data.isPrefixOf cs then
    (match (cs.drop 7).takeWhile (fun c => !pyIsSpace c) with
     | [] => none
     | body => some ("http://".data ++ body))
  else none

/-- Leftmost match of `https?://[^\s]+` (the `urls[0]` of
`re.findall` in `handle_message`). -/
def findUrl : List Char → Option (List Char)
  | [] => none
  | c :: rest =>
    match matchAt (c :: rest) with
    | some m => some m
    | none => findUrl rest

/-- The URL Extractor: first regex match in the message text, if any. -/
def extract (text : String) : Option String := (findUrl text.data).map (fun l => String.mk l)

/-! ### Response interpretation and reply composition (`process_url`) -/

/-- A raw HTTP response from the download API: status code and decoded
body text. -/
structure RawResponse where
  status : Nat
  body : String

/-- Interpreted download outcome. -/
inductive DownloadResult where
  | ready (link : JValue) : DownloadResult
  | unsupported : DownloadResult
  | failed (reason : String) : DownloadResult

/-- The reason of a `failed` result, if the result is `failed`. -/
def failedReason : DownloadResult → Option String
  | .failed r => some r
  | _ => none

/-- Whether a result is `failed`. -/
def isFailed : DownloadResult → Bool
  | .failed _ => true
  | _ => false

/-- An inline-keyboard button action: a direct link (`url=`) or a
callback payload (`callback_data=`). -/
inductive ChoiceAction where
  | urlButton (link : JValue) : ChoiceAction
  | callbackButton (data : String) : ChoiceAction

/-- One actionable choice attached to a reply. -/
structure Choice where
  label : String
  action : ChoiceAction

/-- A composed reply: display text plus ordered choices. -/
structure ReplyPayload where
  text : String
  choices : List Choice

/-- The candidate-field probe `data.get('url') or data.get('downloadUrl')
or data.get('video_url')` of `process_url`. -/
def probeLink (kvs : List (String × JValue)) : JValue :=
  pyOr (dGet kvs "url") (pyOr (dGet kvs "downloadUrl") (dGet kvs "video_url"))

/-- The error reply of `process_url`: the caught exception text truncated
to 100 characters, embedded in the fixed error message. -/
def failText (reason : String) : String :=
  "❌ *Error*\n\nCould not download this content.\nError: " ++ strTake reason 100
    ++ "...\n\nTry another URL or try again later."

/-- The unsupported-platform reply text of `process_url`. -/
def unsupportedText : String :=
  "❌ *Unsupported Platform*\n\nThis URL is not from a supported platform.\nUse /platforms to see all supported platforms."

/-- The `PLATFORMS` display-name table. -/
def PLATFORMS : List (String × String) :=
  [("youtube", "🎬 YouTube"),
   ("instagram", "📸 Instagram"),
   ("facebook", "📘 Facebook"),
   ("twitter", "🐦 Twitter/X"),
   ("tiktok", "🎵 TikTok"),
   ("snapchat", "👻 Snapchat"),
   ("pinterest", "📌 Pinterest"),
   ("linkedin", "💼 LinkedIn"),
   ("reddit", "📱 Reddit"),
   ("threads", "🧵 Threads"),
   ("rumble", "🎥 Rumble"),
   ("twitch", "🟣 Twitch"),
   ("dailymotion", "🎞️ Dailymotion"),
   ("vimeo", "🎥 Vimeo")]

/-- Python `str.title()` for ASCII: uppercase a letter after a non-letter,
lowercase a letter after a letter. -/
def titleCaseGo : Bool → List Char → List Char
  | _, [] => []
  | prevAlpha, c :: rest =>
    (if c.isAlpha then (if prevAlpha then c.toLower else c.toUpper) else c)
      :: titleCaseGo c.isAlpha rest

/-- Python `str.title()` for ASCII strings. -/
def titleCase (s : String) : String := String.mk (titleCaseGo false s.data)

/-- `PLATFORMS.get(platform, platform.title())` of `process_url`. -/
def platformDisplay (p : String) : String :=
  match PLATFORMS.find? (fun q => q.1 == p) with
  | some q => q.2
  | none => titleCase p

/-- The Response Interpreter slice of `process_url` (lines 198-238),
abstracted to the `DownloadResult` it realizes: non-200 status raises and
is caught as `failed`; an unparseable body falls back to a 200-character
preview; a parsed body is probed for candidate fields, where the
membership test or `data.get` can raise (`failed`); a parsed body with
no candidate key falls back to a 400-character preview. -/
def interpret (resp : RawResponse) : DownloadResult :=
  if resp.status ≠ 200 then
    .failed (strTake ("API returned status " ++ Nat.repr resp.status) 100)
  else
    match parseJson resp.body with
    | none => .ready (.str (strTake resp.body 200))
    | some data =>
      match hasCandidateKey data with
      | .error e => .failed (strTake e 100)
      | .ok true =>
        (match data with
         | .obj kvs => .ready (probeLink kvs)
         | other => .failed (strTake (attrErr other) 100))
      | .ok false => .ready (.str (strTake resp.body 400))

/-- The reply `process_url` sends for a given platform, original URL and
API response (lines 198-238): the same branch structure as `interpret`,
composed into message text and inline-keyboard choices.  Only the
candidate-field branch attaches buttons. -/
def respond (platform url : String) (resp : RawResponse) : ReplyPayload :=
  if resp.status ≠ 200 then
    ⟨failText ("API returned status " ++ Nat.repr resp.status), []⟩
  else
    match parseJson resp.body with
    | none => ⟨"Direct download: " ++ strTake resp.body 200 ++ "...", []⟩
    | some data =>
      match hasCandidateKey data with
      | .error e => ⟨failText e, []⟩
      | .ok true =>
        (match data with
         | .obj kvs =>
           ⟨"✅ *Download Ready!*\n\n*Platform:* " ++ platformDisplay platform
              ++ "\nClick the button below to download:",
            [⟨"⬇️ Download Now", .urlButton (probeLink kvs)⟩,
             ⟨"🔄 Try Another", .callbackButton ("retry_" ++ url)⟩]⟩
         | other => ⟨failText (attrErr other), []⟩)
      | .ok false => ⟨"Download link: " ++ strTake resp.body 400 ++ "...", []⟩

/-- `process_url` from classification on, with the download API as an
explicit function argument: an unknown platform short-circuits to the
unsupported reply without consulting the API. -/
def process_url (url : String) (api : String → RawResponse) : ReplyPayload :=
  if extract_url_info url = "unknown" then ⟨unsupportedText, []⟩
  else respond (extract_url_info url) url (api url)

/-- The retry branch of `button_callback`: the URL is recovered from the
callback payload by `data[6:]`. -/
def retryUrlOf (data : String) : String := strDrop data 6

end SocialDL

namespace SocialDL

/-! ### Helper lemmas -/

theorem strTake_of_le (s : String) (n : Nat) (h : s.data.length ≤ n) : strTake s n = s := by
  simp [strTake, List.take_of_length_le h]

set_option maxRecDepth 4000 in
theorem reprLen_le_three (n : Nat) (h : n < 1000) : (Nat.repr n).length ≤ 3 := by
  have hall : ∀ m, m < 1000 → (Nat.repr m).length ≤ 3 := by decide
  exact hall n h

theorem find?_eq_get_first {α : Type} (l : List α) (p : α → Bool) :
    ∀ (i : Nat) (h : i < l.length), p (l.get ⟨i, h⟩) = true →
      (∀ (j : Nat) (hj : j < l.length), j < i → p (l.get ⟨j, hj⟩) = false) →
      l.find? p = some (l.get ⟨i, h⟩) := by
  induction l with
  | nil => intro i h; exact absurd h (Nat.not_lt_zero i)
  | cons a tl ih =>
    intro i h hp hb
    cases i with
    | zero => exact List.find?_cons_of_pos tl hp
    | succ i' =>
      have ha : p a = false := hb 0 (Nat.succ_pos _) (Nat.succ_pos _)
      rw [List.find?_cons_of_neg tl (by simp [ha])]
      exact ih i' (Nat.lt_of_succ_lt_succ h) hp
        (fun j hj hji => hb (j + 1) (Nat.succ_lt_succ hj) (Nat.succ_lt_succ hji))

end SocialDL

namespace SocialDL

/-! ### Claim C3 -/

/-- Claim C3, as stated, is false at status 503: the Failed reason the
code produces is the caught exception text `"API returned status 503"`,
not `"status 503"`. -/
theorem c3_counterexample :
    interpret ⟨503, "oops"⟩ ≠ DownloadResult.failed "status 503"
    ∧ interpret ⟨503, "oops"⟩ = DownloadResult.failed "API returned status 503" := by
  constructor
  · intro h
    exact absurd (congrArg failedReason h) (by decide)
  · rfl

/-- Claim C3 (amended): a non-200 status is converted to a Failed result
whose reason is the exception text `"API returned status " ++ code`
truncated to 100 characters; for real HTTP status codes (below 1000)
that reason embeds `"status " ++ code` as a substring. -/
theorem c3_amended : ∀ resp : RawResponse, resp.status ≠ 200 →
    interpret resp = .failed (strTake ("API returned status " ++ Nat.repr resp.status) 100)
    ∧ (resp.status < 1000 →
      ("status " ++ Nat.repr resp.status).data
        <:+: (strTake ("API returned status " ++ Nat.repr resp.status) 100).data) := by
  intro resp h
  constructor
  · simp [interpret, h]
  · intro hlt
    have hrepr : (Nat.repr resp.status).length ≤ 3 := reprLen_le_three _ hlt
    have hlen : ("API returned status " ++ Nat.repr resp.status).data.length ≤ 100 := by
      rw [String.data_append, List.length_append]
      have h20 : "API returned status ".data.length = 20 := by decide
      have : (Nat.repr resp.status).data.length ≤ 3 := hrepr
      omega
    rw [strTake_of_le _ _ hlen]
    have hsplit : ("API returned status " ++ Nat.repr resp.status).data
        = "API returned ".data ++ ("status " ++ Nat.repr resp.status).data := by
      rw [String.data_append, String.data_append]
      have : "API returned status ".data = "API returned ".data ++ "status ".data := by decide
      rw [this, List.append_assoc]
    rw [hsplit]
    exact (List.suffix_append _ _).isInfix

/-- Witness for C3 (amended) at status 503. -/
theorem c3_amended_witness :
    interpret ⟨503, "oops"⟩ = .failed (strTake ("API returned status " ++ Nat.repr 503) 100)
    ∧ ("status " ++ Nat.repr 503).data
        <:+: (strTake ("API returned status " ++ Nat.repr 503) 100).data :=
  ⟨(c3_amended ⟨503, "oops"⟩ (by decide)).1,
   (c3_amended ⟨503, "oops"⟩ (by decide)).2 (by decide)⟩

/-! ### Claim C6 -/

/-- Claim C6: a URL classified `unknown` short-circuits to the terminal
unsupported-platform reply with no choices, and the reply does not depend
on the download API at all (no outbound call is made). -/
theorem c6_unknown_short_circuit : ∀ (url : String) (api api' : String → RawResponse),
    extract_url_info url = "unknown" →
    process_url url api = ⟨unsupportedText, []⟩
    ∧ process_url url api = process_url url api' := by
  intro url api api' h
  constructor <;> simp [process_url, h]

/-- Witness for C6 at a URL of an unregistered host, with two APIs that
disagree everywhere. -/
theorem c6_unknown_short_circuit_witness :
    process_url "https://unknown-video-site.example/v" (fun _ => ⟨200, "x"⟩) = ⟨unsupportedText, []⟩
    ∧ process_url "https://unknown-video-site.example/v" (fun _ => ⟨200, "x"⟩)
        = process_url "https://unknown-video-site.example/v" (fun _ => ⟨503, "y"⟩) :=
  c6_unknown_short_circuit "https://unknown-video-site.example/v" _ _ (by decide)

/-! ### Claim C8 -/

/-- Claim C8: the success range is exactly status 200: any other status
(201 and 206 included) yields a Failed result whose value is independent
of the body, while a status-200 response proceeds to interpretation
(an unparseable 200 body still becomes a Ready preview). -/
theorem c8_success_exactly_200 :
    (∀ (s : Nat) (b b' : String), s ≠ 200 →
      isFailed (interpret ⟨s, b⟩) = true ∧ interpret ⟨s, b⟩ = interpret ⟨s, b'⟩)
    ∧ (∀ body, parseJson body = none → interpret ⟨200, body⟩ = .ready (.str (strTake body 200))) := by
  constructor
  · intro s b b' h
    constructor
    · simp [interpret, h, isFailed]
    · simp [interpret, h]
  · intro body hp
    simp [interpret, hp]

/-- Witness for C8 at statuses 201 and 206 and at an unparseable 200
body. -/
theorem c8_success_exactly_200_witness :
    (isFailed (interpret ⟨201, "a"⟩) = true ∧ interpret ⟨201, "a"⟩ = interpret ⟨201, "b"⟩)
    ∧ (isFailed (interpret ⟨206, "a"⟩) = true ∧ interpret ⟨206, "a"⟩ = interpret ⟨206, "b"⟩)
    ∧ interpret ⟨200, "not json at all"⟩ = .ready (.str (strTake "not json at all" 200)) :=
  ⟨c8_success_exactly_200.1 201 "a" "b" (by decide),
   c8_success_exactly_200.1 206 "a" "b" (by decide),
   c8_success_exactly_200.2 "not json at all" (by rfl)⟩

/-! ### Claim C9 -/

/-- Claim C9: substring matching over the whole host misclassifies: the
host `www.netflix.com` contains `x.com`, so the URL classifies as
`twitter` even though no table key equals a Netflix domain. -/
theorem c9_substring_misclassification :
    extract_url_info "https://www.netflix.com/title/81040344" = "twitter"
    ∧ "twitter" ≠ "unknown"
    ∧ domain_map.all (fun p => p.1 != "netflix.com" && p.1 != "www.netflix.com") = true :=
  ⟨rfl, by decide, by decide⟩

/-! ### Claim C10 -/

/-- Claim C10: `interpret` is a pure function of the RawResponse value:
equal inputs give structurally equal DownloadResults. -/
theorem c10_interpret_deterministic : ∀ r r' : RawResponse, r = r' → interpret r = interpret r' :=
  fun _ _ h => h ▸ rfl

/-- Witness for C10 at a concrete response. -/
theorem c10_interpret_deterministic_witness :
    interpret ⟨200, "x"⟩ = interpret ⟨200, "x"⟩ :=
  c10_interpret_deterministic ⟨200, "x"⟩ ⟨200, "x"⟩ rfl

end SocialDL

namespace SocialDL

/-! ### Claim C1 -/

/-- Claim C1, as stated, is false: a success response whose body parses
to JSON `null` (which contains none of the candidate fields) is surfaced
as a Failed result — the membership test raises `TypeError`, caught by
the outer handler — not as a Ready body preview. -/
theorem c1_counterexample :
    parseJson "null" = some JValue.null
    ∧ interpret ⟨200, "null"⟩
        = DownloadResult.failed "argument of type \x27NoneType\x27 is not iterable" := by
  constructor <;> rfl

/-- Claim C1 (amended): on a success status, a body that fails JSON
parsing becomes `Ready` with a 200-character preview; a body that parses
to a container with none of the candidate fields becomes `Ready` with a
400-character preview; a body that parses to `null`, a boolean or a
number becomes `Failed` with the `TypeError` text. -/
theorem c1_amended :
    (∀ b : String, parseJson b = none →
      interpret ⟨200, b⟩ = .ready (.str (strTake b 200)))
    ∧ (∀ (b : String) (data : JValue), parseJson b = some data →
      hasCandidateKey data = .ok false →
      interpret ⟨200, b⟩ = .ready (.str (strTake b 400)))
    ∧ (∀ (b : String) (data : JValue), parseJson b = some data →
      (data = .null ∨ (∃ x, data = .bool x) ∨ (∃ n, data = .num n)) →
      interpret ⟨200, b⟩
        = .failed (strTake ("argument of type \x27" ++ pyTypeName data ++ "\x27 is not iterable") 100)) := by
  refine ⟨?_, ?_, ?_⟩
  · intro b hp
    simp [interpret, hp]
  · intro b data hp hk
    simp [interpret, hp, hk]
  · intro b data hp hcase
    rcases hcase with h | ⟨x, h⟩ | ⟨n, h⟩ <;> subst h <;> simp [interpret, hp] <;> rfl

/-- Witness for C1 (amended): Scenario D's unparseable body, an object
with no candidate field, and a `null` body. -/
theorem c1_amended_witness :
    interpret ⟨200, "not json at all"⟩ = .ready (.str (strTake "not json at all" 200))
    ∧ interpret ⟨200, "\x7b\"other\": 1\x7d"⟩ = .ready (.str (strTake "\x7b\"other\": 1\x7d" 400))
    ∧ interpret ⟨200, "null"⟩
        = .failed (strTake ("argument of type \x27" ++ pyTypeName .null ++ "\x27 is not iterable") 100) :=
  ⟨c1_amended.1 "not json at all" (by rfl),
   c1_amended.2.1 "\x7b\"other\": 1\x7d" (.obj [("other", .num 1)]) (by rfl) (by rfl),
   c1_amended.2.2 "null" .null (by rfl) (Or.inl rfl)⟩

/-! ### Claim C2 -/

/-- Claim C2, as stated, is false in its empty-field clause: when every
candidate field is present but empty, probing does not continue or fall
through — the or-chain returns its last (empty) operand and the result is
`Ready` with an empty link. -/
theorem c2_counterexample :
    interpret ⟨200, "\x7b\"url\": \"\", \"downloadUrl\": \"\", \"video_url\": \"\"\x7d"⟩
      = DownloadResult.ready (.str "")
    ∧ truthy (.str "") = false := ⟨rfl, rfl⟩

/-- Claim C2 (amended): when the body parses as an object and the
key-presence guard passes, the link is the Python or-chain over
`data.get` of `url`, `downloadUrl`, `video_url` in that order: the first
truthy value, or the last probe's (possibly empty or null) value when
all are falsy.  When the first candidate is truthy it wins. -/
theorem c2_amended : ∀ (b : String) (kvs : List (String × JValue)),
    parseJson b = some (.obj kvs) →
    hasCandidateKey (.obj kvs) = .ok true →
    interpret ⟨200, b⟩ = .ready (probeLink kvs)
    ∧ probeLink kvs = pyOrChain [dGet kvs "url", dGet kvs "downloadUrl", dGet kvs "video_url"]
    ∧ (truthy (dGet kvs "url") = true → probeLink kvs = dGet kvs "url") := by
  intro b kvs hp hk
  refine ⟨?_, ?_, ?_⟩
  · simp [interpret, hp, hk]
  · rfl
  · intro h
    simp [probeLink, pyOr, h]

/-- Witness for C2 (amended): Scenario C's body with a single `url`
field. -/
theorem c2_amended_witness :
    interpret ⟨200, "\x7b\"url\": \"https://cdn.example/video.mp4\"\x7d"⟩
      = .ready (probeLink [("url", .str "https://cdn.example/video.mp4")])
    ∧ probeLink [("url", .str "https://cdn.example/video.mp4")]
      = pyOrChain [dGet [("url", .str "https://cdn.example/video.mp4")] "url",
          dGet [("url", .str "https://cdn.example/video.mp4")] "downloadUrl",
          dGet [("url", .str "https://cdn.example/video.mp4")] "video_url"]
    ∧ probeLink [("url", .str "https://cdn.example/video.mp4")]
      = dGet [("url", .str "https://cdn.example/video.mp4")] "url" :=
  ⟨(c2_amended "\x7b\"url\": \"https://cdn.example/video.mp4\"\x7d"
      [("url", .str "https://cdn.example/video.mp4")] (by rfl) (by rfl)).1,
   (c2_amended "\x7b\"url\": \"https://cdn.example/video.mp4\"\x7d"
      [("url", .str "https://cdn.example/video.mp4")] (by rfl) (by rfl)).2.1,
   (c2_amended "\x7b\"url\": \"https://cdn.example/video.mp4\"\x7d"
      [("url", .str "https://cdn.example/video.mp4")] (by rfl) (by rfl)).2.2 (by rfl)⟩

/-! ### Claim C7 -/

/-- Claim C7, as stated, is false: a `Ready` result that arises from the
raw-text fallback (unparseable 200 body) is composed into a reply with no
choices at all — only the candidate-field branch attaches buttons. -/
theorem c7_counterexample :
    interpret ⟨200, "nope"⟩ = DownloadResult.ready (.str "nope")
    ∧ (respond "youtube" "https://youtu.be/a" ⟨200, "nope"⟩).choices = [] := ⟨rfl, rfl⟩

/-- Claim C7 (amended): when the `Ready` result comes from the
candidate-field probe, the reply carries exactly two choices — a direct
url button whose link equals the interpreted link, and a retry callback
`"retry_" ++ original_url` from which `button_callback` recovers the
original URL; fallback `Ready` results carry no choices. -/
theorem c7_amended : ∀ (platform u b : String) (kvs : List (String × JValue)),
    parseJson b = some (.obj kvs) →
    hasCandidateKey (.obj kvs) = .ok true →
    (respond platform u ⟨200, b⟩).choices
      = [⟨"⬇️ Download Now", .urlButton (probeLink kvs)⟩,
         ⟨"🔄 Try Another", .callbackButton ("retry_" ++ u)⟩]
    ∧ interpret ⟨200, b⟩ = .ready (probeLink kvs)
    ∧ retryUrlOf ("retry_" ++ u) = u := by
  intro platform u b kvs hp hk
  refine ⟨?_, ?_, ?_⟩
  · simp [respond, hp, hk]
  · simp [interpret, hp, hk]
  · show String.mk (("retry_" ++ u).data.drop 6) = u
    rw [String.data_append]
    have h6 : ("retry_".data).length = 6 := by decide
    rw [← h6, List.drop_left]

/-- Witness for C7 (amended) at a body whose link sits in `downloadUrl`. -/
theorem c7_amended_witness :
    (respond "youtube" "https://youtu.be/dQw"
        ⟨200, "\x7b\"downloadUrl\": \"https://cdn.example/f.mp4\"\x7d"⟩).choices
      = [⟨"⬇️ Download Now", .urlButton (probeLink [("downloadUrl", .str "https://cdn.example/f.mp4")])⟩,
         ⟨"🔄 Try Another", .callbackButton ("retry_" ++ "https://youtu.be/dQw")⟩]
    ∧ interpret ⟨200, "\x7b\"downloadUrl\": \"https://cdn.example/f.mp4\"\x7d"⟩
        = .ready (probeLink [("downloadUrl", .str "https://cdn.example/f.mp4")])
    ∧ retryUrlOf ("retry_" ++ "https://youtu.be/dQw") = "https://youtu.be/dQw" :=
  c7_amended "youtube" "https://youtu.be/dQw" _ _ (by rfl) (by rfl)

end SocialDL

namespace SocialDL

/-! ### Claim C4 -/

/-- Claim C4: the classifier table is exactly the documented ordered
list; a URL whose lowercased netloc contains no table key classifies as
`unknown`; and the first (in table order) key contained in the netloc
decides the platform. -/
theorem c4_classifier_table :
    domain_map.map Prod.fst
      = ["youtube.com", "youtu.be", "instagram.com", "fb.watch", "facebook.com",
         "twitter.com", "x.com", "tiktok.com", "snapchat.com", "pinterest.com",
         "linkedin.com", "reddit.com", "threads.net", "rumble.com", "twitch.tv",
         "dailymotion.com", "vimeo.com"]
    ∧ (∀ url : String, (∀ p ∈ domain_map, containsSub (lowerStr (netlocOf url)) p.1 = false) →
        extract_url_info url = "unknown")
    ∧ (∀ (url : String) (i : Nat) (h : i < domain_map.length),
        containsSub (lowerStr (netlocOf url)) (domain_map.get ⟨i, h⟩).1 = true →
        (∀ (j : Nat) (hj : j < domain_map.length), j < i →
          containsSub (lowerStr (netlocOf url)) (domain_map.get ⟨j, hj⟩).1 = false) →
        extract_url_info url = (domain_map.get ⟨i, h⟩).2) := by
  refine ⟨by decide, ?_, ?_⟩
  · intro url hnone
    unfold extract_url_info
    rw [List.find?_eq_none.mpr (fun x hx => by simp [hnone x hx])]
  · intro url i h hp hb
    unfold extract_url_info
    rw [find?_eq_get_first domain_map _ i h hp hb]

/-- Witness for C4: a URL of an unregistered host classifies `unknown`;
a mixed-case YouTube URL hits table entry 0. -/
theorem c4_classifier_table_witness :
    extract_url_info "https://example.org/path" = "unknown"
    ∧ extract_url_info "https://WWW.YouTube.com/watch" = "youtube" :=
  ⟨c4_classifier_table.2.1 "https://example.org/path" (by decide),
   c4_classifier_table.2.2 "https://WWW.YouTube.com/watch" 0 (by decide) (by decide)
     (fun j _ hj0 => absurd hj0 (Nat.not_lt_zero j))⟩

/-! ### Claim C5 -/

theorem matchAt_nil : matchAt [] = none := rfl

theorem findUrl_eq_none (l : List Char)
    (h : ∀ i, i < l.length → matchAt (l.drop i) = none) : findUrl l = none := by
  induction l with
  | nil => rfl
  | cons c rest ih =>
    have h0 : matchAt (c :: rest) = none := h 0 (Nat.succ_pos _)
    show (match matchAt (c :: rest) with | some m => some m | none => findUrl rest) = none
    rw [h0]
    exact ih (fun i hi => h (i + 1) (Nat.succ_lt_succ hi))

theorem findUrl_eq_some (l : List Char) :
    ∀ (i : Nat) (m : List Char), (∀ j, j < i → matchAt (l.drop j) = none) →
      matchAt (l.drop i) = some m → findUrl l = some m := by
  induction l with
  | nil =>
    intro i m _ hm
    rw [List.drop_nil, matchAt_nil] at hm
    exact Option.noConfusion hm
  | cons c rest ih =>
    intro i m hj hm
    cases i with
    | zero =>
      have hm0 : matchAt (c :: rest) = some m := hm
      show (match matchAt (c :: rest) with | some m => some m | none => findUrl rest) = some m
      rw [hm0]
    | succ i' =>
      have h0 : matchAt (c :: rest) = none := hj 0 (Nat.succ_pos _)
      show (match matchAt (c :: rest) with | some m => some m | none => findUrl rest) = some m
      rw [h0]
      exact ih i' m (fun j hjlt => hj (j + 1) (Nat.succ_lt_succ hjlt)) hm

theorem matchAt_prefix (cs m : List Char) (h : matchAt cs = some m) : m <+: cs := by
  unfold matchAt at h
  by_cases h8 : ("https://".data.isPrefixOf cs) = true
  · rw [if_pos h8] at h
    obtain ⟨t, ht⟩ := List.isPrefixOf_iff_prefix.mp h8
    have hdrop : cs.drop 8 = t := by
      rw [← ht]
      have hl : ("https://".data).length = 8 := by decide
      rw [← hl, List.drop_left]
    rw [hdrop] at h
    cases htw : t.takeWhile (fun c => !pyIsSpace c) with
    | nil =>
      rw [htw] at h
      exact Option.noConfusion h
    | cons a tl =>
      rw [htw] at h
      have h' : some ("https://".data ++ a :: tl) = some m := h
      injection h' with h''
      subst h''
      obtain ⟨t2, ht2⟩ : a :: tl <+: t := htw ▸ List.takeWhile_prefix _
      exact ⟨t2, by rw [List.append_assoc, ht2, ht]⟩
  · rw [if_neg h8] at h
    by_cases h7 : ("http://".data.isPrefixOf cs) = true
    · rw [if_pos h7] at h
      obtain ⟨t, ht⟩ := List.isPrefixOf_iff_prefix.mp h7
      have hdrop : cs.drop 7 = t := by
        rw [← ht]
        have hl : ("http://".data).length = 7 := by decide
        rw [← hl, List.drop_left]
      rw [hdrop] at h
      cases htw : t.takeWhile (fun c => !pyIsSpace c) with
      | nil =>
        rw [htw] at h
        exact Option.noConfusion h
      | cons a tl =>
        rw [htw] at h
        have h' : some ("http://".data ++ a :: tl) = some m := h
        injection h' with h''
        subst h''
        obtain ⟨t2, ht2⟩ : a :: tl <+: t := htw ▸ List.takeWhile_prefix _
        exact ⟨t2, by rw [List.append_assoc, ht2, ht]⟩
    · rw [if_neg h7] at h
      exact Option.noConfusion h

/-- Claim C5: if no position of the text starts a regex match, `extract`
returns none; otherwise `extract` returns the match at the leftmost
matching position, unmodified (it is literally a prefix of the text's
suffix at that position). -/
theorem c5_extractor : ∀ t : String,
    ((∀ i, i < t.data.length → matchAt (t.data.drop i) = none) → extract t = none)
    ∧ (∀ (i : Nat) (m : List Char), (∀ j, j < i → matchAt (t.data.drop j) = none) →
        matchAt (t.data.drop i) = some m →
        extract t = some (String.mk m) ∧ m <+: t.data.drop i) := by
  intro t
  constructor
  · intro h
    unfold extract
    rw [findUrl_eq_none t.data h]
    rfl
  · intro i m hj hm
    refine ⟨?_, matchAt_prefix _ _ hm⟩
    unfold extract
    rw [findUrl_eq_some t.data i m hj hm]
    rfl

/-- Witness for C5: Scenario B's plain text yields none; Scenario A's
text yields the URL starting at position 15, unmodified. -/
theorem c5_extractor_witness :
    extract "hello there" = none
    ∧ (extract "check this out https://www.youtube.com/watch?v=dQw4w9WgXcQ"
        = some "https://www.youtube.com/watch?v=dQw4w9WgXcQ"
      ∧ "https://www.youtube.com/watch?v=dQw4w9WgXcQ".data
          <+: "check this out https://www.youtube.com/watch?v=dQw4w9WgXcQ".data.drop 15) :=
  ⟨(c5_extractor "hello there").1 (by decide),
   (c5_extractor "check this out https://www.youtube.com/watch?v=dQw4w9WgXcQ").2 15
     "https://www.youtube.com/watch?v=dQw4w9WgXcQ".data (by decide) (by decide)⟩

end SocialDL
